import Mathlib

/-!
Shallow embedding of the per-peer WebRTC media session core of the neko
remote-desktop server (Go package `internal/webrtc`, type `WebRTCPeerCtx`)
and of the websocket message dispatcher (`internal/websocket/handler`),
together with theorems settling the specification's claims about them.

Mutable Go state becomes explicit state passing; `uint16` conversions become
`% 65536`; Go `time.Time` values become `Nat` instants with the Go zero time
as `0` and `time.Since t = now - t`; the `float64` bitrate ratio `diff`
becomes an exact rational (all comparisons the claims exercise are far from
rounding boundaries).
-/

namespace NekoSpec

/-- A stream variant as the peer sees it: stable ID and instantaneous
bitrate (handle produced by the external `StreamSelectorManager`). -/
structure Stream where
  id : String
  bitrate : Nat
  deriving DecidableEq

/-- Modelled from the spec: the `Track` binding (its Go source is not under
`src/`, §4.4 of the spec): the currently bound stream and a paused flag. -/
structure Track where
  stream : Option Stream
  paused : Bool
  deriving DecidableEq

/-- `Track.SetPaused` from the spec: sets the paused flag. -/
def Track.SetPaused (t : Track) (p : Bool) : Track := { t with paused := p }

/-- Modelled from the spec: `Track.SetStream` replaces the bound stream and
reports `changed = false` iff the track was already bound to a stream with
the same ID (§4.4). Transport codec-rejection failures are outside this
model (they are external to the repository). -/
def Track.SetStream (t : Track) (s : Stream) : Track × Bool :=
  ({ t with stream := some s }, decide (t.stream.map Stream.id ≠ some s.id))

/-- Connection states of the opaque transport (pion's
`webrtc.PeerConnectionState`). -/
inductive PeerConnectionState where
  | new
  | connecting
  | connected
  | disconnected
  | failed
  | closed
  deriving DecidableEq

/-- `config.WebRTCEstimator`: the estimator configuration, immutable after
construction. Durations and the read interval are abstract time units;
`diffThreshold` is the `float64` threshold as an exact rational. -/
structure WebRTCEstimator where
  readInterval : Nat
  stableDuration : Nat
  unstableDuration : Nat
  stalledDuration : Nat
  upgradeBackoff : Nat
  downgradeBackoff : Nat
  diffThreshold : ℚ
  passive : Bool
  debug : Bool
  deriving DecidableEq

/-- The peer session state (`WebRTCPeerCtx`): the mutable fields guarded by
the peer mutex, the immutable estimator configuration, whether the
bandwidth estimator handle is present (`estimator != nil`), and the
connection state observed through the transport. -/
structure WebRTCPeerCtx where
  hasEstimator : Bool
  estimatorConfig : WebRTCEstimator
  paused : Bool
  videoAuto : Bool
  videoDisabled : Bool
  audioDisabled : Bool
  videoTrack : Track
  audioTrack : Track
  connectionState : PeerConnectionState
  deriving DecidableEq

/-- `types.StreamSelectorType` (modelled from the spec §3: the tagged union
over by-ID / exact / higher / lower resolution). -/
inductive StreamSelectorType where
  | byID
  | exact
  | higher
  | lower
  deriving DecidableEq

/-- `types.StreamSelector`: request to resolve a stream variant. -/
structure StreamSelector where
  id : String
  type : StreamSelectorType
  deriving DecidableEq

/-- `types.PeerVideoRequest`: a diff-style request; each field is optional
and applied independently. -/
structure PeerVideoRequest where
  disabled : Option Bool := none
  selector : Option StreamSelector := none
  auto : Option Bool := none
  deriving DecidableEq

/-- `types.PeerAudioRequest`. -/
structure PeerAudioRequest where
  disabled : Option Bool := none
  deriving DecidableEq

/-- `types.PeerVideo`: the `Video()` snapshot (the `video` field mirrors
`id` for backward compatibility, as in the source). -/
structure PeerVideo where
  disabled : Bool
  id : String
  video : String
  auto : Bool
  deriving DecidableEq

/-- `types.PeerAudio`: the `Audio()` snapshot. -/
structure PeerAudio where
  disabled : Bool
  deriving DecidableEq

/-- A signaling event emitted through `session.Send`. -/
inductive Signal where
  | video (p : PeerVideo)
  | audio (p : PeerAudio)
  deriving DecidableEq

/-- Errors surfaced by the peer operations modelled here
(`types.ErrWebRTCStreamNotFound`). -/
inductive WebRTCErr where
  | streamNotFound
  deriving DecidableEq

/-- `WebRTCPeerCtx.SetPaused`: repaints both tracks' paused flags as
`isPaused || kindDisabled`, then stores the paused flag. -/
def WebRTCPeerCtx.SetPaused (peer : WebRTCPeerCtx) (isPaused : Bool) : WebRTCPeerCtx :=
  { peer with
    videoTrack := peer.videoTrack.SetPaused (isPaused || peer.videoDisabled)
    audioTrack := peer.audioTrack.SetPaused (isPaused || peer.audioDisabled)
    paused := isPaused }

/-- `WebRTCPeerCtx.Paused`. -/
def WebRTCPeerCtx.Paused (peer : WebRTCPeerCtx) : Bool := peer.paused

/-- `WebRTCPeerCtx.Video`: snapshot of the video state; the ID is `""` when
no stream is bound. -/
def WebRTCPeerCtx.Video (peer : WebRTCPeerCtx) : PeerVideo :=
  let ID := match peer.videoTrack.stream with
    | some s => s.id
    | none => ""
  { disabled := peer.videoDisabled, id := ID, video := ID, auto := peer.videoAuto }

/-- `WebRTCPeerCtx.Audio`: snapshot of the audio state. -/
def WebRTCPeerCtx.Audio (peer : WebRTCPeerCtx) : PeerAudio :=
  { disabled := peer.audioDisabled }

/-- The `r.Disabled` branch of `SetVideo`: update only if changed, repaint
the video track's paused flag as `disabled || paused`. Returns the new
state and whether this branch set `modified`. -/
def setVideoDisabledStep (rdisabled : Option Bool) (peer : WebRTCPeerCtx) :
    WebRTCPeerCtx × Bool :=
  match rdisabled with
  | none => (peer, false)
  | some disabled =>
    if peer.videoDisabled ≠ disabled then
      ({ peer with
          videoDisabled := disabled
          videoTrack := peer.videoTrack.SetPaused (disabled || peer.paused) }, true)
    else (peer, false)

/-- The `r.Auto` branch of `SetVideo`: the requested value is coerced to
`false` when the estimator is absent or the estimator config is passive;
update only if changed. Returns the new state and whether this branch set
`modified`. -/
def setVideoAutoStep (rauto : Option Bool) (peer : WebRTCPeerCtx) :
    WebRTCPeerCtx × Bool :=
  match rauto with
  | none => (peer, false)
  | some a =>
    let videoAuto := if !peer.hasEstimator || peer.estimatorConfig.passive then false else a
    if peer.videoAuto ≠ videoAuto then
      ({ peer with videoAuto := videoAuto }, true)
    else (peer, false)

/-- Result of `SetVideo`: final state, error, and the signaling events the
call emits (dispatched asynchronously in the source; the payload is the
`Video()` snapshot of the state at the end of the call). -/
structure SetVideoResult where
  peer : WebRTCPeerCtx
  err : Option WebRTCErr
  signals : List Signal
  deriving DecidableEq

/-- The final step of `SetVideo`: emit `SIGNAL_VIDEO` iff `modified`. -/
def setVideoFinish (peer : WebRTCPeerCtx) (modified : Bool) : SetVideoResult :=
  { peer := peer, err := none
    signals := if modified then [Signal.video peer.Video] else [] }

/-- `WebRTCPeerCtx.SetVideo`: applies the diff request field by field
(disabled, then selector, then auto); an unresolvable selector returns
`streamNotFound` immediately, skipping the remaining fields and the signal
emission. `pool` stands for `peer.video.GetStream` (the external
`StreamSelectorManager`). -/
def WebRTCPeerCtx.SetVideo (peer : WebRTCPeerCtx)
    (pool : StreamSelector → Option Stream) (r : PeerVideoRequest) : SetVideoResult :=
  let step1 := setVideoDisabledStep r.disabled peer
  match r.selector with
  | none =>
    let step3 := setVideoAutoStep r.auto step1.1
    setVideoFinish step3.1 (step1.2 || step3.2)
  | some selector =>
    match pool selector with
    | none => { peer := step1.1, err := some WebRTCErr.streamNotFound, signals := [] }
    | some stream =>
      let ts := step1.1.videoTrack.SetStream stream
      let peer2 := { step1.1 with videoTrack := ts.1 }
      let step3 := setVideoAutoStep r.auto peer2
      setVideoFinish step3.1 (step1.2 || ts.2 || step3.2)

/-- `WebRTCPeerCtx.SetAudio`: the `disabled` diff for audio; emits
`SIGNAL_AUDIO` iff modified. -/
def WebRTCPeerCtx.SetAudio (peer : WebRTCPeerCtx) (r : PeerAudioRequest) :
    WebRTCPeerCtx × List Signal :=
  match r.disabled with
  | none => (peer, [])
  | some disabled =>
    if peer.audioDisabled ≠ disabled then
      let peer2 := { peer with
        audioDisabled := disabled
        audioTrack := peer.audioTrack.SetPaused (disabled || peer.paused) }
      (peer2, [Signal.audio peer2.Audio])
    else (peer, [])

/-- Result of `Destroy`: the new state, whether a close was attempted, and
the close error that was logged (Go `Destroy` itself returns nothing, so
there is no returned-error component at all). -/
structure DestroyResult where
  peer : WebRTCPeerCtx
  closeAttempted : Bool
  loggedErr : Option String
  deriving DecidableEq

/-- `WebRTCPeerCtx.Destroy`: closes the peer connection only when its state
is not already `closed`; the close error (`closeErr`, supplied by the
opaque transport) is only logged. Modelled from the spec for the transport
part: `Close` drives the connection state to `closed`. -/
def WebRTCPeerCtx.Destroy (peer : WebRTCPeerCtx) (closeErr : Option String) : DestroyResult :=
  if peer.connectionState ≠ PeerConnectionState.closed then
    { peer := { peer with connectionState := PeerConnectionState.closed }
      closeAttempted := true
      loggedErr := closeErr }
  else
    { peer := peer, closeAttempted := false, loggedErr := none }

/-- One externally visible mutating call on a peer session. -/
inductive PeerOp where
  | setPaused (isPaused : Bool)
  | setVideo (r : PeerVideoRequest)
  | setAudio (r : PeerAudioRequest)
  deriving DecidableEq

/-- Apply one operation to the peer state (errors and signals of `SetVideo`
and `SetAudio` do not alter how the state advances). -/
def applyOp (pool : StreamSelector → Option Stream) (peer : WebRTCPeerCtx)
    (op : PeerOp) : WebRTCPeerCtx :=
  match op with
  | .setPaused b => peer.SetPaused b
  | .setVideo r => (peer.SetVideo pool r).peer
  | .setAudio r => (peer.SetAudio r).1

/-- Apply a sequence of operations, first to last. -/
def applyOps (pool : StreamSelector → Option Stream) (peer : WebRTCPeerCtx)
    (ops : List PeerOp) : WebRTCPeerCtx :=
  ops.foldl (applyOp pool) peer

/-- The paused-flag invariant of the spec: each track's paused flag equals
`paused ∨ kindDisabled`. -/
def pausedInvariant (peer : WebRTCPeerCtx) : Prop :=
  peer.videoTrack.paused = (peer.paused || peer.videoDisabled) ∧
  peer.audioTrack.paused = (peer.paused || peer.audioDisabled)

instance (peer : WebRTCPeerCtx) : Decidable (pausedInvariant peer) :=
  inferInstanceAs (Decidable (_ ∧ _))

/-- The video state observable through `Video()` and the bound stream:
disabled flag, auto flag, and the bound stream's ID (`none` when unbound). -/
def videoObserved (peer : WebRTCPeerCtx) : Bool × Bool × Option String :=
  (peer.videoDisabled, peer.videoAuto, peer.videoTrack.stream.map Stream.id)

/-! ## The adaptive-bitrate loop (`estimatorReader`)

The `TrendDetector` (package `utils`, not part of the session core) is
abstracted as the per-tick direction it reports; the estimator sample is
the per-tick `GetTargetBitrate` value. -/

/-- `utils.TrendDirection`. -/
inductive TrendDirection where
  | upward
  | neutral
  | downward
  deriving DecidableEq

/-- The loop-local timestamps of `estimatorReader`. In the source,
`stableSince` is initialized to `time.Now()` at loop start while the other
four are the Go zero time (modelled as instant `0`). -/
structure AbrState where
  stableSince : Nat
  unstableSince : Nat
  stalledSince : Nat
  lastUpgradeTime : Nat
  lastDowngradeTime : Nat
  deriving DecidableEq

/-- The timestamps as initialized at loop entry at instant `t0`. -/
def initAbrState (t0 : Nat) : AbrState :=
  { stableSince := t0, unstableSince := 0, stalledSince := 0
    lastUpgradeTime := 0, lastDowngradeTime := 0 }

/-- Result of one tick of `estimatorReader`: either the loop breaks
(connection closed), or it continues with updated timestamps, possibly
having issued one `SetVideo` call. -/
inductive TickResult where
  | exit
  | cont (st : AbrState) (call : Option PeerVideoRequest)
  deriving DecidableEq

/-- The `SetVideo` call a tick issued, if any. -/
def tickCall : TickResult → Option PeerVideoRequest
  | .exit => none
  | .cont _ c => c

/-- One tick of the `estimatorReader` loop body: break on a closed
connection; idle when `!videoAuto || videoDisabled || paused || passive`;
otherwise compare the estimated target bitrate against the current stream
bitrate and decide between the downgrade path, the upgrade path, or
waiting. `time.Since x` is `now - x`. -/
def abrTick (peer : WebRTCPeerCtx) (target : Int) (dir : TrendDirection)
    (st : AbrState) (now : Nat) : TickResult :=
  let conf := peer.estimatorConfig
  if peer.connectionState = PeerConnectionState.closed then
    .exit
  else if !peer.videoAuto || peer.videoDisabled || peer.paused || conf.passive then
    .cont st none
  else
    match peer.videoTrack.stream with
    | none => .cont st none
    | some stream =>
      if stream.bitrate = 0 then .cont st none
      else
        let diff : ℚ := (target : ℚ) / (stream.bitrate : ℚ)
        let stalledSince :=
          if dir ≠ TrendDirection.neutral ∨ 1 + conf.diffThreshold < diff then now
          else st.stalledSince
        let stalled :=
          dir = TrendDirection.neutral ∧ conf.stalledDuration < now - stalledSince
        if dir = TrendDirection.downward ∨ stalled then
          -- downgrade path: we might be congesting
          let st1 := { st with stableSince := now, stalledSince := stalledSince }
          if now - st.lastDowngradeTime < conf.downgradeBackoff then
            .cont st1 none
          else if now - st.unstableSince < conf.unstableDuration then
            .cont st1 none
          else if 0 ≤ conf.diffThreshold ∧ 1 + conf.diffThreshold < diff then
            .cont st1 none
          else
            .cont { st1 with lastDowngradeTime := now }
              (some { selector := some { id := stream.id, type := StreamSelectorType.lower } })
        else
          -- upgrade path: the estimate is stable
          let st1 := { st with unstableSince := now, stalledSince := stalledSince }
          if now - st.lastUpgradeTime < conf.upgradeBackoff then
            .cont st1 none
          else if now - st.stableSince < conf.stableDuration then
            .cont st1 none
          else if 0 ≤ conf.diffThreshold ∧ diff < 1 + conf.diffThreshold then
            .cont st1 none
          else
            .cont { st1 with lastUpgradeTime := now }
              (some { selector := some { id := stream.id, type := StreamSelectorType.higher } })

/-- `n` ticks of the loop started at instant `t0`, with the peer state,
estimator sample and trend direction held constant across ticks (the
constant-input scenarios of the spec); tick `k` fires at
`t0 + k * readInterval`. Collects every issued `SetVideo` call with the
instant it was issued. -/
def abrRun (peer : WebRTCPeerCtx) (target : Int) (dir : TrendDirection)
    (t0 : Nat) : Nat → AbrState × List (Nat × PeerVideoRequest)
  | 0 => (initAbrState t0, [])
  | n + 1 =>
    let prev := abrRun peer target dir t0 n
    let now := t0 + (n + 1) * peer.estimatorConfig.readInterval
    match abrTick peer target dir prev.1 now with
    | .exit => prev
    | .cont st call =>
      (st, prev.2 ++ (match call with | none => [] | some r => [(now, r)]))

/-! ## Data-channel binary frames (`SendCursorPosition`, `SendCursorImage`)

The `payload` package (struct layouts, opcodes) is not under `src/`; its
layouts are modelled from the spec §6.3: a 3-byte big-endian header
`event: u8, length: u16`, and payload structs that carry 3 fixed padding
bytes (the payload struct's embedded zero header), so the cursor-position
payload is 7 bytes and the cursor-image metadata block is 11 bytes. -/

/-- Modelled from the spec: `payload.OP_CURSOR_POSITION`. -/
def OP_CURSOR_POSITION : Nat := 1

/-- Modelled from the spec: `payload.OP_CURSOR_IMAGE`. -/
def OP_CURSOR_IMAGE : Nat := 2

/-- `payload.Header`: `Event uint8`, `Length uint16`. Field values are kept
as `Nat`; the fixed-width truncation happens at encoding time. -/
structure Header where
  event : Nat
  length : Nat
  deriving DecidableEq

/-- Big-endian encoding of a 16-bit value (two bytes). -/
def be16 (n : Nat) : List Nat := [n / 256 % 256, n % 256]

/-- `binary.Write` of the 3-byte header, big-endian. -/
def encodeHeader (h : Header) : List Nat := h.event % 256 :: be16 h.length

/-- Modelled from the spec: the 3 fixed padding bytes of the payload
structs (their embedded never-assigned header encodes as zeros). -/
def payloadPadding : List Nat := [0, 0, 0]

/-- Go `uint16(x)` for `x : int`: two's-complement truncation to the low
16 bits. -/
def uint16OfInt (x : Int) : Nat := (x % 65536).toNat

/-- The cursor-image metadata (`types.CursorImage` fields used by the
frame, each a `uint16`). -/
structure CursorImage where
  width : Nat
  height : Nat
  xhot : Nat
  yhot : Nat
  deriving DecidableEq

/-- `binary.Write` of the cursor-image metadata block (11 bytes): the four
`uint16` fields big-endian plus the fixed padding (spec §6.3 layout). -/
def cursorImageData (cur : CursorImage) : List Nat :=
  be16 cur.width ++ be16 cur.height ++ be16 cur.xhot ++ be16 cur.yhot ++ payloadPadding

/-- Result of a data-channel send: the error returned to the caller and the
bytes written to the channel. -/
structure SendResult where
  err : Option String
  frame : List Nat
  deriving DecidableEq

/-- `WebRTCPeerCtx.SendCursorPosition`: a no-op for the host session;
otherwise writes one frame: header (event `OP_CURSOR_POSITION`, length 7)
followed by the 7-byte cursor-position payload with `x` and `y` truncated
to `uint16`. `binary.Write` into a `bytes.Buffer` cannot fail for these
fixed-size types, and the data-channel send is the opaque transport. -/
def SendCursorPosition (isHost : Bool) (x y : Int) : SendResult :=
  if isHost then { err := none, frame := [] }
  else
    { err := none
      frame := encodeHeader { event := OP_CURSOR_POSITION, length := 7 } ++
        (payloadPadding ++ be16 (uint16OfInt x) ++ be16 (uint16OfInt y)) }

/-- `WebRTCPeerCtx.SendCursorImage`: writes one frame: header with event
`OP_CURSOR_IMAGE` and length `uint16(11 + len(img))` (the Go conversion
wraps modulo 2^16), the 11-byte metadata block, then the raw image bytes.
There is no failure path. -/
def SendCursorImage (cur : CursorImage) (img : List Nat) : SendResult :=
  { err := none
    frame := encodeHeader { event := OP_CURSOR_IMAGE, length := (11 + img.length) % 65536 } ++
      cursorImageData cur ++ img }

/-! ## The websocket message dispatcher (`MessageHandlerCtx.Message`)

The `event` and `message` packages are not under `src/`; modelled from the
spec, the eight handled event names are pairwise distinct constants, and
any other event name is `other`. -/

/-- An incoming message's event name. -/
inductive WsEvent where
  | signalRequest
  | signalAnswer
  | controlRelease
  | controlRequest
  | screenSet
  | clipboardSet
  | keyboardModifiers
  | keyboardLayout
  | other (name : String)
  deriving DecidableEq

/-- The handler methods of `MessageHandlerCtx`. -/
inductive HandlerName where
  | signalRequestH
  | signalAnswerH
  | controlReleaseH
  | controlRequestH
  | screenSetH
  | clipboardSetH
  | keyboardLayoutH
  | keyboardModifiersH
  deriving DecidableEq

/-- The payload type unmarshalled for a dispatched handler. -/
inductive PayloadKind where
  | noPayload
  | signalAnswerP
  | screenSizeP
  | clipboardDataP
  | keyboardLayoutP
  | keyboardModifiersP
  deriving DecidableEq

/-- The switch of `MessageHandlerCtx.Message`: which handler runs for an
event name and which payload type is unmarshalled for it; `none` for the
default case. Transcribed case by case from the source (including the
keyboard cases exactly as written there). -/
def dispatchOf : WsEvent → Option (HandlerName × PayloadKind)
  | .signalRequest => some (.signalRequestH, .noPayload)
  | .signalAnswer => some (.signalAnswerH, .signalAnswerP)
  | .controlRelease => some (.controlReleaseH, .noPayload)
  | .controlRequest => some (.controlRequestH, .noPayload)
  | .screenSet => some (.screenSetH, .screenSizeP)
  | .clipboardSet => some (.clipboardSetH, .clipboardDataP)
  | .keyboardModifiers => some (.keyboardLayoutH, .keyboardLayoutP)
  | .keyboardLayout => some (.keyboardModifiersH, .keyboardModifiersP)
  | .other _ => none

/-- Whether an event name is one of the eight the dispatcher handles. -/
def isHandledEvent : WsEvent → Bool
  | .other _ => false
  | _ => true

/-- `MessageHandlerCtx.Message`: `headerParse` is the result of
unmarshalling the raw bytes as a message header (`none` on failure), and
`res` gives the combined payload-unmarshal/handler outcome for whichever
handler runs. Returns the boolean result and the error that is logged but
never returned. -/
def Message (headerParse : Option WsEvent) (res : HandlerName → Option String) :
    Bool × Option String :=
  match headerParse with
  | none => (false, some "message parsing has failed")
  | some ev =>
    match dispatchOf ev with
    | none => (false, none)
    | some hp => (true, res hp.1)

/-! ## Concrete instances used by counterexamples and witnesses -/

/-- The spec's S1/S2 estimator configuration: `readInterval=1s`,
`stableDuration=5s`, `unstableDuration=2s`, `stalledDuration=10s`,
`upgradeBackoff=5s`, `downgradeBackoff=10s`, `diffThreshold=0.15`. -/
def s2Conf : WebRTCEstimator :=
  { readInterval := 1, stableDuration := 5, unstableDuration := 2, stalledDuration := 10
    upgradeBackoff := 5, downgradeBackoff := 10, diffThreshold := 15 / 100
    passive := false, debug := false }

/-- S2 peer: auto mode on, nothing paused or disabled, bound to a
4,000,000 bps stream, connection open. -/
def s2Peer : WebRTCPeerCtx :=
  { hasEstimator := true, estimatorConfig := s2Conf, paused := false, videoAuto := true
    videoDisabled := false, audioDisabled := false
    videoTrack := { stream := some { id := "hd", bitrate := 4000000 }, paused := false }
    audioTrack := { stream := none, paused := false }
    connectionState := PeerConnectionState.connected }

/-- The S2 loop run: loop start at instant 100, estimator flat at
3,000,000 bps, trend neutral on every tick. -/
def s2Run (n : Nat) : AbrState × List (Nat × PeerVideoRequest) :=
  abrRun s2Peer 3000000 TrendDirection.neutral 100 n

/-- The downgrade request the S2 loop issues. -/
def s2DownReq : PeerVideoRequest :=
  { selector := some { id := "hd", type := StreamSelectorType.lower } }

/-- A freshly constructed idle peer: auto off, nothing paused or disabled,
no streams bound yet. -/
def basePeer : WebRTCPeerCtx :=
  { hasEstimator := true, estimatorConfig := s2Conf, paused := false, videoAuto := false
    videoDisabled := false, audioDisabled := false
    videoTrack := { stream := none, paused := false }
    audioTrack := { stream := none, paused := false }
    connectionState := PeerConnectionState.connected }

/-- The idle peer with the estimator handle absent. -/
def basePeerNoEst : WebRTCPeerCtx := { basePeer with hasEstimator := false }

/-- A stream pool in which no selector resolves. -/
def noStreamPool : StreamSelector → Option Stream := fun _ => none

/-- The request of the C4 counterexample: change the disabled flag and
also select a stream that does not resolve. -/
def c4Req : PeerVideoRequest :=
  { disabled := some true, selector := some { id := "x", type := StreamSelectorType.exact } }

/-- A sample operation sequence on one peer session. -/
def demoOps : List PeerOp :=
  [PeerOp.setPaused true, PeerOp.setVideo { disabled := some true },
    PeerOp.setAudio { disabled := some true }, PeerOp.setPaused false]

/-- Cursor metadata used by the C5 counterexample. -/
def curDemo : CursorImage := { width := 32, height := 32, xhot := 4, yhot := 4 }

/-! ## Helper lemmas -/

theorem Track.SetStream_stream (t : Track) (s : Stream) : (t.SetStream s).1.stream = some s := rfl

theorem Track.SetStream_paused (t : Track) (s : Stream) : (t.SetStream s).1.paused = t.paused := rfl

theorem Track.SetStream_changed (t : Track) (s : Stream) :
    (t.SetStream s).2 = true ↔ some s.id ≠ t.stream.map Stream.id := by
  simp only [Track.SetStream, decide_eq_true_eq]
  exact ne_comm

theorem Video_auto (peer : WebRTCPeerCtx) : peer.Video.auto = peer.videoAuto := rfl

theorem setVideoDisabledStep_modified (rd : Option Bool) (peer : WebRTCPeerCtx) :
    (setVideoDisabledStep rd peer).2 = true ↔
      (setVideoDisabledStep rd peer).1.videoDisabled ≠ peer.videoDisabled := by
  cases rd with
  | none => simp [setVideoDisabledStep]
  | some d =>
    by_cases hd : peer.videoDisabled = d
    · simp [setVideoDisabledStep, hd]
    · simp only [setVideoDisabledStep, ne_eq, hd, not_false_iff, if_true]
      simpa using Ne.symm hd

theorem setVideoDisabledStep_frame (rd : Option Bool) (peer : WebRTCPeerCtx) :
    (setVideoDisabledStep rd peer).1.videoAuto = peer.videoAuto ∧
    (setVideoDisabledStep rd peer).1.videoTrack.stream = peer.videoTrack.stream ∧
    (setVideoDisabledStep rd peer).1.hasEstimator = peer.hasEstimator ∧
    (setVideoDisabledStep rd peer).1.estimatorConfig = peer.estimatorConfig ∧
    (setVideoDisabledStep rd peer).1.paused = peer.paused ∧
    (setVideoDisabledStep rd peer).1.audioDisabled = peer.audioDisabled ∧
    (setVideoDisabledStep rd peer).1.audioTrack = peer.audioTrack := by
  cases rd with
  | none => exact ⟨rfl, rfl, rfl, rfl, rfl, rfl, rfl⟩
  | some d =>
    by_cases hd : peer.videoDisabled = d <;>
      simp [setVideoDisabledStep, hd, Track.SetPaused]

theorem setVideoDisabledStep_inv (rd : Option Bool) (peer : WebRTCPeerCtx)
    (h : pausedInvariant peer) : pausedInvariant (setVideoDisabledStep rd peer).1 := by
  cases rd with
  | none => exact h
  | some d =>
    by_cases hd : peer.videoDisabled = d
    · simpa [setVideoDisabledStep, hd] using h
    · simp only [setVideoDisabledStep, ne_eq, hd, not_false_iff, if_true]
      exact ⟨Bool.or_comm d peer.paused, h.2⟩

theorem setVideoAutoStep_modified (ra : Option Bool) (peer : WebRTCPeerCtx) :
    (setVideoAutoStep ra peer).2 = true ↔
      (setVideoAutoStep ra peer).1.videoAuto ≠ peer.videoAuto := by
  cases ra with
  | none => simp [setVideoAutoStep]
  | some a =>
    by_cases hv : peer.videoAuto =
        (if !peer.hasEstimator || peer.estimatorConfig.passive then false else a)
    · simp [setVideoAutoStep, hv]
    · simp only [setVideoAutoStep, ne_eq, hv, not_false_iff, if_true]
      simpa using Ne.symm hv

theorem setVideoAutoStep_frame (ra : Option Bool) (peer : WebRTCPeerCtx) :
    (setVideoAutoStep ra peer).1.videoDisabled = peer.videoDisabled ∧
    (setVideoAutoStep ra peer).1.videoTrack = peer.videoTrack ∧
    (setVideoAutoStep ra peer).1.paused = peer.paused ∧
    (setVideoAutoStep ra peer).1.audioDisabled = peer.audioDisabled ∧
    (setVideoAutoStep ra peer).1.audioTrack = peer.audioTrack := by
  cases ra with
  | none => exact ⟨rfl, rfl, rfl, rfl, rfl⟩
  | some a =>
    simp only [setVideoAutoStep]
    split <;> split <;> exact ⟨rfl, rfl, rfl, rfl, rfl⟩

theorem setVideoAutoStep_coerced (a : Bool) (peer : WebRTCPeerCtx)
    (h : (!peer.hasEstimator || peer.estimatorConfig.passive) = true) :
    (setVideoAutoStep (some a) peer).1.videoAuto = false := by
  by_cases hv : peer.videoAuto = false
  · simp [setVideoAutoStep, h, hv]
  · simp [setVideoAutoStep, h, hv]

theorem setVideoAutoStep_inv (ra : Option Bool) (peer : WebRTCPeerCtx)
    (h : pausedInvariant peer) : pausedInvariant (setVideoAutoStep ra peer).1 := by
  obtain ⟨f1, f2, f3, f4, f5⟩ := setVideoAutoStep_frame ra peer
  exact ⟨by rw [f2, f3, f1]; exact h.1, by rw [f5, f3, f4]; exact h.2⟩

theorem SetVideo_inv (pool : StreamSelector → Option Stream) (r : PeerVideoRequest)
    (peer : WebRTCPeerCtx) (h : pausedInvariant peer) :
    pausedInvariant (peer.SetVideo pool r).peer := by
  have h1 := setVideoDisabledStep_inv r.disabled peer h
  unfold WebRTCPeerCtx.SetVideo
  split
  · exact setVideoAutoStep_inv _ _ h1
  · split
    · exact h1
    · exact setVideoAutoStep_inv _ _ ⟨h1.1, h1.2⟩

theorem SetAudio_inv (r : PeerAudioRequest) (peer : WebRTCPeerCtx)
    (h : pausedInvariant peer) : pausedInvariant (peer.SetAudio r).1 := by
  unfold WebRTCPeerCtx.SetAudio
  split
  · exact h
  · split
    · exact ⟨h.1, Bool.or_comm _ _⟩
    · exact h

theorem applyOp_inv (pool : StreamSelector → Option Stream) (peer : WebRTCPeerCtx)
    (op : PeerOp) (h : pausedInvariant peer) : pausedInvariant (applyOp pool peer op) := by
  cases op with
  | setPaused b => exact ⟨rfl, rfl⟩
  | setVideo r => exact SetVideo_inv pool r peer h
  | setAudio r => exact SetAudio_inv r peer h

theorem setVideoFinish_signals (q : WebRTCPeerCtx) (m : Bool) :
    (setVideoFinish q m).signals ≠ [] ↔ m = true := by
  cases m <;> simp [setVideoFinish]

theorem setVideoFinish_err (q : WebRTCPeerCtx) (m : Bool) :
    (setVideoFinish q m).err = none := rfl

theorem setVideoFinish_peer (q : WebRTCPeerCtx) (m : Bool) :
    (setVideoFinish q m).peer = q := rfl

theorem setVideoFinish_shape (q : WebRTCPeerCtx) (m : Bool) :
    (setVideoFinish q m).signals = [] ∨
    (setVideoFinish q m).signals = [Signal.video (setVideoFinish q m).peer.Video] := by
  cases m <;> simp [setVideoFinish]

theorem videoObserved_ne_iff (p q : WebRTCPeerCtx) :
    videoObserved p ≠ videoObserved q ↔
      (p.videoDisabled ≠ q.videoDisabled ∨ p.videoAuto ≠ q.videoAuto ∨
        p.videoTrack.stream.map Stream.id ≠ q.videoTrack.stream.map Stream.id) := by
  simp only [videoObserved, ne_eq, Prod.mk.injEq, not_and]
  tauto

/-! ## The claims -/

/-- C1: for every sequence of `SetPaused`, `SetVideo` and `SetAudio` calls
on one peer, afterwards the video track's paused flag equals
`paused || videoDisabled` and the audio track's paused flag equals
`paused || audioDisabled` (assuming the invariant held before the
sequence, as it does for a freshly constructed peer). -/
theorem paused_flag_invariant (pool : StreamSelector → Option Stream)
    (ops : List PeerOp) (peer : WebRTCPeerCtx) (h : pausedInvariant peer) :
    pausedInvariant (applyOps pool peer ops) := by
  induction ops generalizing peer with
  | nil => exact h
  | cons op rest ih => exact ih _ (applyOp_inv pool peer op h)

/-- C1 witness: the invariant holds after a concrete sequence of calls on
a freshly constructed peer. -/
theorem paused_flag_invariant_witness :
    pausedInvariant (applyOps noStreamPool basePeer demoOps) :=
  paused_flag_invariant noStreamPool demoOps basePeer (by exact ⟨rfl, rfl⟩)

/-- C2: on a tick of the `estimatorReader` loop, if at the gate check
`videoAuto` is false, or `videoDisabled` is true, or `paused` is true, or
the estimator config is passive, the tick issues no `SetVideo` call. -/
theorem abr_gate_no_setvideo (peer : WebRTCPeerCtx) (target : Int)
    (dir : TrendDirection) (st : AbrState) (now : Nat)
    (h : peer.videoAuto = false ∨ peer.videoDisabled = true ∨ peer.paused = true ∨
      peer.estimatorConfig.passive = true) :
    tickCall (abrTick peer target dir st now) = none := by
  unfold abrTick
  by_cases hc : peer.connectionState = PeerConnectionState.closed
  · simp [hc, tickCall]
  · have hg : (!peer.videoAuto || peer.videoDisabled || peer.paused ||
        peer.estimatorConfig.passive) = true := by
      rcases h with h | h | h | h <;> simp [h]
    simp [hc, hg, tickCall]

/-- C2 witness: a concrete gated tick (auto mode off) issues no call. -/
theorem abr_gate_no_setvideo_witness :
    tickCall (abrTick basePeer 3000000 TrendDirection.neutral (initAbrState 100) 101) = none :=
  abr_gate_no_setvideo basePeer 3000000 TrendDirection.neutral (initAbrState 100) 101
    (Or.inl rfl)

/-- C3: for every `SetVideo` request with the auto field present, if the
estimator handle is absent or the estimator config is passive, the stored
`videoAuto` is coerced to false, so `Video().Auto` is false regardless of
what the caller requested; the call still returns success (provided the
request's selector, if any, resolves — an unresolvable selector makes the
call return `streamNotFound` before the auto field is processed). -/
theorem video_auto_coerced (pool : StreamSelector → Option Stream)
    (r : PeerVideoRequest) (peer : WebRTCPeerCtx) (a : Bool)
    (hauto : r.auto = some a)
    (hest : peer.hasEstimator = false ∨ peer.estimatorConfig.passive = true)
    (hsel : ∀ sel, r.selector = some sel → (pool sel).isSome = true) :
    (peer.SetVideo pool r).err = none ∧
    (peer.SetVideo pool r).peer.videoAuto = false ∧
    (peer.SetVideo pool r).peer.Video.auto = false := by
  obtain ⟨-, -, fe, fc, -, -, -⟩ := setVideoDisabledStep_frame r.disabled peer
  have hcoerce : ∀ q : WebRTCPeerCtx, q.hasEstimator = peer.hasEstimator →
      q.estimatorConfig = peer.estimatorConfig →
      (setVideoAutoStep r.auto q).1.videoAuto = false := by
    intro q hqe hqc
    rw [hauto]
    apply setVideoAutoStep_coerced
    rw [hqe, hqc]
    rcases hest with h | h <;> simp [h]
  unfold WebRTCPeerCtx.SetVideo
  split
  · have := hcoerce (setVideoDisabledStep r.disabled peer).1 fe fc
    exact ⟨rfl, this, by rw [Video_auto]; exact this⟩
  · rename_i sel hs
    split
    · rename_i hpool
      have hp := hsel sel hs
      rw [hpool] at hp
      simp at hp
    · rename_i stream hpool
      have := hcoerce { (setVideoDisabledStep r.disabled peer).1 with
          videoTrack := ((setVideoDisabledStep r.disabled peer).1.videoTrack.SetStream stream).1 }
        fe fc
      exact ⟨rfl, this, by rw [Video_auto]; exact this⟩

/-- C3 witness: requesting auto mode on a peer without an estimator stores
and reports `videoAuto = false` and the call succeeds. -/
theorem video_auto_coerced_witness :
    (basePeerNoEst.SetVideo noStreamPool { auto := some true }).err = none ∧
    (basePeerNoEst.SetVideo noStreamPool { auto := some true }).peer.videoAuto = false ∧
    (basePeerNoEst.SetVideo noStreamPool { auto := some true }).peer.Video.auto = false :=
  video_auto_coerced noStreamPool { auto := some true } basePeerNoEst true rfl
    (Or.inl rfl) (fun _ h => Option.noConfusion h)

/-- C7: `Destroy` closes the peer connection only when its state is not
already closed; after a `Destroy` the state is closed, so a second
`Destroy` attempts no close and logs nothing — and by its Go signature
`Destroy` returns no error at all (close failures are only logged). -/
theorem destroy_idempotent (peer : WebRTCPeerCtx) (e1 e2 : Option String) :
    ((peer.Destroy e1).closeAttempted =
      decide (peer.connectionState ≠ PeerConnectionState.closed)) ∧
    ((peer.Destroy e1).peer.connectionState = PeerConnectionState.closed) ∧
    ((peer.Destroy e1).peer.Destroy e2 =
      { peer := (peer.Destroy e1).peer, closeAttempted := false, loggedErr := none }) := by
  unfold WebRTCPeerCtx.Destroy
  by_cases h : peer.connectionState = PeerConnectionState.closed
  · simp [h]
  · simp [h]

/-- C9: the dispatcher sends event `KEYBOARD_MODIFIERS` to the
`keyboardLayout` handler with a `KeyboardLayout` payload, and event
`KEYBOARD_LAYOUT` to the `keyboardModifiers` handler with a
`KeyboardModifiers` payload — the two handler payload types are swapped,
exactly as the source is written. -/
theorem keyboard_events_swapped :
    dispatchOf WsEvent.keyboardModifiers =
      some (HandlerName.keyboardLayoutH, PayloadKind.keyboardLayoutP) ∧
    dispatchOf WsEvent.keyboardLayout =
      some (HandlerName.keyboardModifiersH, PayloadKind.keyboardModifiersP) :=
  ⟨rfl, rfl⟩

/-- C10: `Message` returns false exactly when the raw input fails to parse
as a message header or the event name is not one of the eight handled
events; a matched handler's error (any value of `res`) never makes it
return false — the error is only logged. -/
theorem message_return_false_iff (headerParse : Option WsEvent)
    (res : HandlerName → Option String) :
    (Message headerParse res).1 = false ↔
      (headerParse = none ∨
        ∃ ev, headerParse = some ev ∧ isHandledEvent ev = false) := by
  cases headerParse with
  | none => simp [Message]
  | some ev => cases ev <;> simp [Message, dispatchOf, isHandledEvent]

/-- C4 counterexample: a `SetVideo` request that turns the disabled flag
on and also carries a selector that resolves to `streamNotFound` changes
the observable state yet emits no `SIGNAL_VIDEO`, because the call returns
the error before reaching the signal-emission step. -/
theorem setvideo_signal_counterexample :
    (basePeer.SetVideo noStreamPool c4Req).signals = [] ∧
    (basePeer.SetVideo noStreamPool c4Req).err = some WebRTCErr.streamNotFound ∧
    videoObserved (basePeer.SetVideo noStreamPool c4Req).peer ≠ videoObserved basePeer := by
  refine ⟨by decide, by decide, by decide⟩

/-- C4 as amended: `SetVideo` emits `SIGNAL_VIDEO` (asynchronously, with
the `Video()` snapshot of the state at the end of the call) exactly when
the call returns success and some observable video state — disabled flag,
bound stream, or `videoAuto` — changed; when a later field of the request
fails, no signal is emitted even though the earlier fields' changes are
retained. -/
theorem setvideo_signal_amended (pool : StreamSelector → Option Stream)
    (r : PeerVideoRequest) (peer : WebRTCPeerCtx) :
    ((peer.SetVideo pool r).signals ≠ [] ↔
      ((peer.SetVideo pool r).err = none ∧
        videoObserved (peer.SetVideo pool r).peer ≠ videoObserved peer)) ∧
    ((peer.SetVideo pool r).signals = [] ∨
      (peer.SetVideo pool r).signals = [Signal.video (peer.SetVideo pool r).peer.Video]) := by
  obtain ⟨fa1, fa2, -, -, -, -, -⟩ := setVideoDisabledStep_frame r.disabled peer
  have hma := setVideoDisabledStep_modified r.disabled peer
  unfold WebRTCPeerCtx.SetVideo
  dsimp only
  split
  · -- no selector: disabled step then auto step
    obtain ⟨fc1, fc2, -, -, -⟩ :=
      setVideoAutoStep_frame r.auto (setVideoDisabledStep r.disabled peer).1
    have hmc := setVideoAutoStep_modified r.auto (setVideoDisabledStep r.disabled peer).1
    refine ⟨?_, setVideoFinish_shape _ _⟩
    rw [setVideoFinish_signals, setVideoFinish_err, setVideoFinish_peer, videoObserved_ne_iff,
      and_iff_right rfl, Bool.or_eq_true, hma, hmc, fc1, fc2, fa2, ← fa1]
    tauto
  · split
    · -- selector present but unresolvable: early error, no signal
      refine ⟨iff_of_false (by simp) ?_, Or.inl rfl⟩
      rintro ⟨h, -⟩
      cases h
    · -- selector resolved: disabled step, stream swap, auto step
      rename_i stream hpool
      obtain ⟨fc1, fc2, -, -, -⟩ := setVideoAutoStep_frame r.auto
        { (setVideoDisabledStep r.disabled peer).1 with
          videoTrack := ((setVideoDisabledStep r.disabled peer).1.videoTrack.SetStream stream).1 }
      have hmc := setVideoAutoStep_modified r.auto
        { (setVideoDisabledStep r.disabled peer).1 with
          videoTrack := ((setVideoDisabledStep r.disabled peer).1.videoTrack.SetStream stream).1 }
      have hts := Track.SetStream_changed (setVideoDisabledStep r.disabled peer).1.videoTrack stream
      dsimp only at fc1 fc2 hmc ⊢
      refine ⟨?_, setVideoFinish_shape _ _⟩
      rw [setVideoFinish_signals, setVideoFinish_err, setVideoFinish_peer, videoObserved_ne_iff,
        and_iff_right rfl, Bool.or_eq_true, Bool.or_eq_true, hma, hmc, hts, fc1, fc2,
        Track.SetStream_stream, fa2, ← fa1]
      simp only [Option.map_some']
      tauto

/-- C5 counterexample: with a 65,525-byte image the total encoded length
is 11 + 65,525 = 65,536, which exceeds the 16-bit length field — yet
`SendCursorImage` does not fail: it returns success and the 16-bit length
field wraps to 0. -/
theorem cursor_image_no_encode_error :
    (SendCursorImage curDemo (List.replicate 65525 0)).err = none ∧
    (11 + (List.replicate 65525 (0 : Nat)).length) % 65536 = 0 := by
  refine ⟨rfl, ?_⟩
  rw [List.length_replicate]

/-- C5 as amended: `SendCursorImage` never fails with an encode error; the
16-bit length field is computed as `(11 + len(img)) % 2^16`, so for images
longer than 65,524 bytes a frame with a silently wrapped length field is
written (the bytes after the 3-byte header are always the 11-byte metadata
block plus the whole image). -/
theorem cursor_image_wrapped_length (cur : CursorImage) (img : List Nat) :
    (SendCursorImage cur img).err = none ∧
    (SendCursorImage cur img).frame =
      encodeHeader { event := OP_CURSOR_IMAGE, length := (11 + img.length) % 65536 } ++
        cursorImageData cur ++ img ∧
    ((SendCursorImage cur img).frame.drop 3).length = 11 + img.length := by
  refine ⟨rfl, rfl, ?_⟩
  simp [SendCursorImage, encodeHeader, cursorImageData, be16, payloadPadding]
  omega

/-- C6 counterexample: in the S2 scenario (estimator flat at 3,000,000,
stream bitrate 4,000,000, neutral trend, `stalledDuration = 10`), the
first downgrade is issued already at the first tick — one `readInterval`
after loop start, before `stalledDuration` has elapsed — because the
loop's `stalledSince` and backoff timestamps are initialized to the zero
time, making every `time.Since` of them huge. -/
theorem s2_first_tick_downgrade :
    (s2Run 1).2 = [(101, s2DownReq)] ∧ 101 - 100 < s2Conf.stalledDuration := by
  constructor
  · with_unfolding_all decide
  · with_unfolding_all decide

/-- C6 as amended: in the S2 scenario the first downgrade is issued at the
first tick (not only after `stalledDuration`), and it is the only
downgrade issued within the `downgradeBackoff = 10` window that follows:
every run of up to 10 ticks contains exactly that one downgrade request. -/
theorem s2_single_downgrade (n : Nat) (h1 : 1 ≤ n) (h2 : n ≤ 10) :
    (s2Run n).2 = [(101, s2DownReq)] := by
  have h : ∀ m, m < 11 → 1 ≤ m → (s2Run m).2 = [(101, s2DownReq)] := by
    with_unfolding_all decide
  exact h n (by omega) h1

/-- C6 witness: the 10-tick run (the full backoff window) contains exactly
the single first-tick downgrade. -/
theorem s2_single_downgrade_witness : (s2Run 10).2 = [(101, s2DownReq)] :=
  s2_single_downgrade 10 (by norm_num) (by norm_num)

/-- C8: `SendCursorPosition` returns success and writes zero bytes when
the session's role is host; otherwise it writes exactly one frame: the
3-byte big-endian header with event `OP_CURSOR_POSITION = 0x01` and
length 7, followed by the 7-byte big-endian payload carrying `x` and `y`
each truncated to unsigned 16-bit. -/
theorem cursor_position_frames (x y : Int) :
    SendCursorPosition true x y = { err := none, frame := [] } ∧
    SendCursorPosition false x y =
      { err := none
        frame := encodeHeader { event := OP_CURSOR_POSITION, length := 7 } ++
          (payloadPadding ++ be16 (uint16OfInt x) ++ be16 (uint16OfInt y)) } ∧
    encodeHeader { event := OP_CURSOR_POSITION, length := 7 } = [1, 0, 7] ∧
    (payloadPadding ++ be16 (uint16OfInt x) ++ be16 (uint16OfInt y)).length = 7 ∧
    uint16OfInt x < 65536 ∧ uint16OfInt y < 65536 := by
  refine ⟨rfl, rfl, rfl, by simp [payloadPadding, be16], ?_, ?_⟩ <;>
    · unfold uint16OfInt
      omega

end NekoSpec
